import Mathlib

/-!
Verification of `reset_camera_clip_planes.py` (Maya camera clip-plane reset
tool), in two revisions: the main file at the repository root and the earlier
revision in `tast-2020-BI/`.

The embedding models a Maya scene-graph node as a handle with a node-type
string and a list of direct children (only direct children are ever inspected
by the code), and models the mutable camera attributes `nearClipPlane` /
`farClipPlane` as a state `Scene` mapping node ids to rational values,
together with a log of the attribute writes performed, in order.  Clip values
are carried as rationals: the Python code performs no arithmetic on them, it
only passes them through `float()` (value-preserving) and hands them to the
host attribute setter, so an exact numeric type is a faithful model of the
data flow.
-/

set_option autoImplicit false

/-- A scene-graph node handle: a node id, the node-type string reported by the
host (`"transform"`, `"camera"`, or anything else), and the node's direct
children. -/
inductive Node where
  | mk (id : Nat) (ntype : String) (children : List Node)

/-- The node id of a node handle. -/
def Node.id : Node → Nat
  | Node.mk i _ _ => i

/-- The node-type string of a node handle. -/
def Node.ntype : Node → String
  | Node.mk _ t _ => t

/-- The direct children of a node handle. -/
def Node.children : Node → List Node
  | Node.mk _ _ c => c

/-- Model of the host query `mc.nodeType(str(node))`: the host reports the
node's type string. -/
def mc_nodeType (node : Node) : String :=
  Node.ntype node

/-- Model of pymel's `node.type()` used by the `tast-2020-BI/` revision: it
reports the same node-type string as `mc.nodeType`. -/
def Node.type (n : Node) : String :=
  Node.ntype n

/-- Model of pymel's `node.listRelatives(type=t)`: the direct children of
`node` whose node type is `t`, in child order. -/
def Node.listRelatives (node : Node) (t : String) : List Node :=
  (Node.children node).filter (fun c => Node.ntype c == t)

/-- Function `is_node_of_type` from the root revision:
`return mc.nodeType(str(node)) == node_type`. -/
def is_node_of_type (node : Node) (node_type : String) : Bool :=
  mc_nodeType node == node_type

/-- Function `resolve_cameras` from the root revision: for each node, if it is a
transform yield its `listRelatives(type="camera")`, else if it is a camera
yield the node itself, else yield nothing.  The Python generator is modelled
as the list of yielded nodes. -/
def resolve_cameras : List Node → List Node
  | [] => []
  | node :: rest =>
    if is_node_of_type node "transform" then
      Node.listRelatives node "camera" ++ resolve_cameras rest
    else if is_node_of_type node "camera" then
      node :: resolve_cameras rest
    else
      resolve_cameras rest

/-- C1: For every input sequence of scene nodes, `resolve_cameras` yields
exactly: for each `"transform"` node its direct `"camera"`-type children in
child order, for each `"camera"` node the node itself, and nothing for any
other node type, concatenated in input order (so duplicates are kept). -/
theorem resolve_cameras_characterization (nodes : List Node) :
    resolve_cameras nodes =
      nodes.flatMap (fun node =>
        if Node.ntype node == "transform" then
          (Node.children node).filter (fun c => Node.ntype c == "camera")
        else if Node.ntype node == "camera" then
          [node]
        else
          []) := by
  induction nodes with
  | nil => rfl
  | cons node rest ih =>
    simp only [resolve_cameras, is_node_of_type, mc_nodeType, Node.listRelatives,
      List.flatMap_cons]
    by_cases ht : (Node.ntype node == "transform") = true
    · simp [ht, ih]
    · simp only [Bool.not_eq_true] at ht
      by_cases hc : (Node.ntype node == "camera") = true
      · simp [ht, hc, ih]
      · simp only [Bool.not_eq_true] at hc
        simp [ht, hc, ih]

/-- The two camera clip-plane attributes touched by the tool. -/
inductive Attr where
  | nearClip
  | farClip
deriving DecidableEq

/-- One attribute write performed against the host scene: which camera node,
which attribute, and the value written. -/
structure ClipWrite where
  cam : Nat
  attr : Attr
  value : Rat
deriving DecidableEq

/-- The mutable camera-attribute state of the host scene: the current
`nearClipPlane` and `farClipPlane` value of each node id, plus the ordered
log of attribute writes performed so far. -/
structure Scene where
  nearClipPlane : Nat → Rat
  farClipPlane : Nat → Rat
  log : List ClipWrite

/-- Model of pymel's `cam.setNearClipPlane(v)`: write `v` to the camera's
`nearClipPlane` attribute and record the write. -/
def setNearClipPlane (cam : Nat) (v : Rat) (s : Scene) : Scene :=
  { s with
    nearClipPlane := fun i => if i = cam then v else s.nearClipPlane i
    log := s.log ++ [ClipWrite.mk cam Attr.nearClip v] }

/-- Model of pymel's `cam.setFarClipPlane(v)`: write `v` to the camera's
`farClipPlane` attribute and record the write. -/
def setFarClipPlane (cam : Nat) (v : Rat) (s : Scene) : Scene :=
  { s with
    farClipPlane := fun i => if i = cam then v else s.farClipPlane i
    log := s.log ++ [ClipWrite.mk cam Attr.farClip v] }

/-- Function `set_cameras_clip_plane` from the root revision: for each camera in
sequence order, set its near clip plane and then its far clip plane. -/
def set_cameras_clip_plane (cameras : List Node) (near far : Rat) (s : Scene) : Scene :=
  match cameras with
  | [] => s
  | cam :: rest =>
    set_cameras_clip_plane rest near far
      (setFarClipPlane (Node.id cam) far (setNearClipPlane (Node.id cam) near s))

/-- The write trace the setter loop produces for one camera: its near write
followed by its far write. -/
def clipWritesFor (near far : Rat) (c : Node) : List ClipWrite :=
  [ClipWrite.mk (Node.id c) Attr.nearClip near, ClipWrite.mk (Node.id c) Attr.farClip far]

theorem set_cameras_clip_plane_log (cameras : List Node) (near far : Rat) (s : Scene) :
    (set_cameras_clip_plane cameras near far s).log =
      s.log ++ cameras.flatMap (clipWritesFor near far) := by
  induction cameras generalizing s with
  | nil => simp [set_cameras_clip_plane]
  | cons cam rest ih =>
    simp [set_cameras_clip_plane, ih, setNearClipPlane, setFarClipPlane, clipWritesFor,
      List.flatMap_cons, List.append_assoc]

theorem set_cameras_clip_plane_preserve (cameras : List Node) (near far : Rat) (s : Scene)
    (x : Nat) (hn : s.nearClipPlane x = near) (hf : s.farClipPlane x = far) :
    (set_cameras_clip_plane cameras near far s).nearClipPlane x = near ∧
      (set_cameras_clip_plane cameras near far s).farClipPlane x = far := by
  induction cameras generalizing s with
  | nil => exact ⟨hn, hf⟩
  | cons cam rest ih =>
    apply ih
    · simp only [setFarClipPlane, setNearClipPlane]
      by_cases h : x = Node.id cam <;> simp [h, hn]
    · simp only [setFarClipPlane, setNearClipPlane]
      by_cases h : x = Node.id cam <;> simp [h, hf]

theorem set_cameras_clip_plane_mem (cameras : List Node) (near far : Rat) (s : Scene)
    (cam : Node) (hmem : cam ∈ cameras) :
    (set_cameras_clip_plane cameras near far s).nearClipPlane (Node.id cam) = near ∧
      (set_cameras_clip_plane cameras near far s).farClipPlane (Node.id cam) = far := by
  induction cameras generalizing s with
  | nil => cases hmem
  | cons c rest ih =>
    rcases List.mem_cons.mp hmem with h | h
    · subst h
      simp only [set_cameras_clip_plane]
      apply set_cameras_clip_plane_preserve
      · simp [setFarClipPlane, setNearClipPlane]
      · simp [setFarClipPlane, setNearClipPlane]
    · simp only [set_cameras_clip_plane]
      exact ih _ h

/-- Exceptions a `get_cameras_func` host call can raise in `reset_cameras`:
the two named tool errors `NothingSelectedError` and
`FailedToResolveFromSelectionError`, or any other host exception (abstracted
by a numeric code). -/
inductive HostExc where
  | nothingSelectedError
  | failedToResolveFromSelectionError
  | otherExc (code : Nat)
deriving DecidableEq

/-- Function `get_selected_cameras` from the root revision, with the current host
selection `pm_general.ls(sl=True)` passed in as `sel`: raise
`NothingSelectedError` if nothing is selected, resolve cameras from the
selection, raise `FailedToResolveFromSelectionError` if none resolve,
otherwise return the resolved list. -/
def get_selected_cameras (sel : List Node) : Except HostExc (List Node) :=
  if sel.isEmpty then
    Except.error HostExc.nothingSelectedError
  else
    let cameras := resolve_cameras sel
    if cameras.isEmpty then
      Except.error HostExc.failedToResolveFromSelectionError
    else
      Except.ok cameras

/-- Function `get_all_cameras` from the root revision: `pm_general.ls(cameras=True)`.
The host's answer — the list of every camera node in the scene — is passed in
as `sceneCameras` and returned as is. -/
def get_all_cameras (sceneCameras : List Node) : List Node :=
  sceneCameras

/-- The observable outcome of `MayaResetCameraClipPlanes.reset_cameras`:
either a named failure was caught and reported by an in-view error message
(the method returns early), or some other exception was re-raised by the
bare `except Exception` arm and propagates to the caller, or the method ran
to completion. -/
inductive ResetOutcome where
  | abortedWithMessage (exc : HostExc)
  | raised (exc : HostExc)
  | completed
deriving DecidableEq

/-- The body of `MayaResetCameraClipPlanes.reset_cameras` (lines 235-262),
with the result of the `get_cameras_func()` host call passed in as
`getCams` (this covers both modes of `action_map` as well as any other host
exception).  `NothingSelectedError` and `FailedToResolveFromSelectionError`
are caught: an in-view error message is shown and the method returns with no
attribute set; any other exception is re-raised unmodified; on success
`float()` is applied to the clip values (value-preserving) and
`set_cameras_clip_plane` runs. -/
def reset_cameras_model (getCams : Except HostExc (List Node)) (near far : Rat) (s : Scene) :
    ResetOutcome × Scene :=
  match getCams with
  | Except.error HostExc.nothingSelectedError =>
    (ResetOutcome.abortedWithMessage HostExc.nothingSelectedError, s)
  | Except.error HostExc.failedToResolveFromSelectionError =>
    (ResetOutcome.abortedWithMessage HostExc.failedToResolveFromSelectionError, s)
  | Except.error e => (ResetOutcome.raised e, s)
  | Except.ok cameras => (ResetOutcome.completed, set_cameras_clip_plane cameras near far s)

/-- Model of `camera_manip_clipping_toggle`: issue one `renderManip` call per
camera, passing the five-slot manipulator-state list whose fourth slot
("clipping planes") is `enable`.  The calls are returned as a trace. -/
def camera_manip_clipping_toggle (cameras : List Node) (enable : Bool) :
    List (Nat × List Bool) :=
  (if enable then
    cameras.map (fun cam => (Node.id cam, [false, false, false, true, false]))
  else
    cameras.map (fun cam => (Node.id cam, [false, false, false, false, false])))

/-- Method `MayaResetCameraClipPlanes.camera_manip_show_selected` (lines 274-277),
with the host selection passed in as `sel`: it calls `get_selected_cameras`
with NO try/except, so either named error propagates uncaught (outcome
`raised`, no in-view message, no `renderManip` call); on success the
clipping manipulators of the resolved cameras are shown. -/
def camera_manip_show_selected (sel : List Node) : ResetOutcome × List (Nat × List Bool) :=
  match get_selected_cameras sel with
  | Except.error e => (ResetOutcome.raised e, [])
  | Except.ok cameras => (ResetOutcome.completed, camera_manip_clipping_toggle cameras true)

theorem resolve_cameras_eq_nil_iff (nodes : List Node) :
    resolve_cameras nodes = [] ↔
      ∀ n ∈ nodes, Node.ntype n ≠ "camera" ∧
        (Node.ntype n = "transform" →
          ∀ c ∈ Node.children n, Node.ntype c ≠ "camera") := by
  induction nodes with
  | nil => simp [resolve_cameras]
  | cons node rest ih =>
    simp only [resolve_cameras, is_node_of_type, mc_nodeType, Node.listRelatives]
    by_cases ht : Node.ntype node = "transform"
    · simp only [ht, beq_self_eq_true, if_true, List.append_eq_nil,
        List.filter_eq_nil_iff, ih, List.mem_cons]
      constructor
      · rintro ⟨hfil, hrest⟩
        intro n hn
        rcases hn with h | h
        · subst h
          refine ⟨by simp [ht], fun _ c hc => ?_⟩
          have := hfil c hc
          simpa using this
        · exact hrest n h
      · rintro hall
        refine ⟨fun c hc => ?_, fun n hn => hall n (Or.inr hn)⟩
        have := (hall node (Or.inl rfl)).2 ht c hc
        simpa using this
    · have ht' : (Node.ntype node == "transform") = false := by
        simpa using ht
      by_cases hc : Node.ntype node = "camera"
      · simp only [ht', Bool.false_eq_true, if_false, hc, beq_self_eq_true, if_true]
        constructor
        · intro h
          cases h
        · intro hall
          exact absurd hc (hall node (List.mem_cons_self node rest)).1
      · have hc' : (Node.ntype node == "camera") = false := by
          simpa using hc
        simp only [ht', hc', Bool.false_eq_true, if_false, ih, List.mem_cons]
        constructor
        · intro hrest n hn
          rcases hn with h | h
          · subst h
            exact ⟨hc, fun h => absurd h ht⟩
          · exact hrest n h
        · intro hall n hn
          exact hall n (Or.inr hn)

namespace rev2

/-- Function `is_node_of_type` from the `tast-2020-BI/` revision:
`return n.type() == node_type`. -/
def is_node_of_type (n : Node) (node_type : String) : Bool :=
  Node.type n == node_type

/-- Function `resolve_cameras` from the `tast-2020-BI/` revision (lines 23-32): same
generator loop as the root revision, using pymel's `n.type()` instead of
`mc.nodeType`. -/
def resolve_cameras : List Node → List Node
  | [] => []
  | node :: rest =>
    if is_node_of_type node "transform" then
      Node.listRelatives node "camera" ++ resolve_cameras rest
    else if is_node_of_type node "camera" then
      node :: resolve_cameras rest
    else
      resolve_cameras rest

/-- Function `reset_cameras_clip_plane` from the `tast-2020-BI/` revision (lines
35-40): the same setter loop as the root revision's
`set_cameras_clip_plane`. -/
def reset_cameras_clip_plane (cameras : List Node) (near far : Rat) (s : Scene) : Scene :=
  match cameras with
  | [] => s
  | cam :: rest =>
    reset_cameras_clip_plane rest near far
      (setFarClipPlane (Node.id cam) far (setNearClipPlane (Node.id cam) near s))

/-- Function `reset_cameras_clip_plane_all` from the `tast-2020-BI/` revision:
`pm.ls(cameras=True)` (passed in as `sceneCameras`) fed to the setter. -/
def reset_cameras_clip_plane_all (sceneCameras : List Node) (near far : Rat) (s : Scene) :
    Scene :=
  reset_cameras_clip_plane sceneCameras near far s

end rev2

/-- The setter loop of `set_cameras_clip_plane` against a host on which an
attribute write may raise (e.g. a locked attribute), described by `locked`.
Each write is attempted in the source's order (near then far per camera); the
first write that raises stops the loop — no further sets are performed — and
the host exception (identified by the camera id and attribute) propagates as
the second component, with the scene as mutated so far. -/
def set_cameras_clip_plane_exc (locked : Nat → Attr → Bool) (cameras : List Node)
    (near far : Rat) (s : Scene) : Scene × Option (Nat × Attr) :=
  match cameras with
  | [] => (s, none)
  | cam :: rest =>
    if locked (Node.id cam) Attr.nearClip then
      (s, some (Node.id cam, Attr.nearClip))
    else
      let s1 := setNearClipPlane (Node.id cam) near s
      if locked (Node.id cam) Attr.farClip then
        (s1, some (Node.id cam, Attr.farClip))
      else
        set_cameras_clip_plane_exc locked rest near far (setFarClipPlane (Node.id cam) far s1)

/-- Source `ClipPair = namedtuple("ClipPair", "near far")`. -/
structure ClipPair where
  near : Rat
  far : Rat
deriving DecidableEq

/-- Source `DEFAULT_CLIP_PLANE_NEAR = 1.0`. -/
def DEFAULT_CLIP_PLANE_NEAR : Rat := 1

/-- Source `DEFAULT_CLIP_PLANE_FAR = 50000.0`. -/
def DEFAULT_CLIP_PLANE_FAR : Rat := 50000

/-- The insertion-ordered keys of the class attribute
`action_map = OrderedDict()` to which `"selected"` and `"all"` are added in
that order. -/
def action_map_keys : List String :=
  ["selected", "all"]

/-- Source `self.action_map.get(self.mode)` followed by calling the resulting
function: `"selected"` maps to `get_selected_cameras` (over the host
selection `sel`), `"all"` maps to `get_all_cameras` (over the host's camera
list `sceneCameras`), and any other key yields `None` (`OrderedDict.get`
returns `None` for a missing key). -/
def action_map_call (mode : String) (sel sceneCameras : List Node) :
    Option (Except HostExc (List Node)) :=
  if mode = "selected" then some (get_selected_cameras sel)
  else if mode = "all" then some (Except.ok (get_all_cameras sceneCameras))
  else none

/-- A `MayaResetCameraClipPlanes` Python instance: its two instance
attributes, each `none` while unset (Python raises `AttributeError` on
access of an unset instance attribute). -/
structure MayaResetCameraClipPlanes where
  mode : Option String
  clip_values : Option ClipPair
deriving DecidableEq

/-- Constructor call `MayaResetCameraClipPlanes()`: the class defines `__int__`, not
`__init__`, so Python's default object initializer runs and no instance
attribute is ever set on a fresh instance. -/
def MayaResetCameraClipPlanes.new : MayaResetCameraClipPlanes :=
  { mode := none, clip_values := none }

/-- The body of the misnamed `__int__` method (lines 230-233), which would
set `mode = action_map.keys()[0]` and
`clip_values = ClipPair(DEFAULT_NEAR, DEFAULT_FAR)` if it were ever called
as an initializer. -/
def MayaResetCameraClipPlanes.__int__ (self : MayaResetCameraClipPlanes) :
    MayaResetCameraClipPlanes :=
  { self with
    mode := some (action_map_keys.getD 0 "")
    clip_values := some (ClipPair.mk DEFAULT_CLIP_PLANE_NEAR DEFAULT_CLIP_PLANE_FAR) }

/-- The attribute assignments the UI performs right before each apply
(lines 674-675): `camera_actions.mode = mode` and
`camera_actions.clip_values = clip_values`. -/
def MayaResetCameraClipPlanes.ui_assign (self : MayaResetCameraClipPlanes)
    (mode : String) (clip_values : ClipPair) : MayaResetCameraClipPlanes :=
  { self with mode := some mode, clip_values := some clip_values }

/-- Method `MayaResetCameraClipPlanes.reset_cameras` as invoked on an instance,
including the Python attribute lookups in source order: `self.mode` is read
first (raising `AttributeError` if unset), then `action_map.get(mode)` is
called — a missing key gives `None`, and the subsequent
`get_cameras_func.__name__` access raises `AttributeError` — then the
try/except around `get_cameras_func()` runs, and only on its success is
`self.clip_values` read (raising `AttributeError` if unset) before the
setter loop. -/
def MayaResetCameraClipPlanes.reset_cameras (self : MayaResetCameraClipPlanes)
    (sel sceneCameras : List Node) (s : Scene) : Except String (ResetOutcome × Scene) :=
  match self.mode with
  | none => Except.error "AttributeError: mode"
  | some mode =>
    match action_map_call mode sel sceneCameras with
    | none => Except.error "AttributeError: __name__"
    | some getResult =>
      match getResult with
      | Except.error HostExc.nothingSelectedError =>
        Except.ok (ResetOutcome.abortedWithMessage HostExc.nothingSelectedError, s)
      | Except.error HostExc.failedToResolveFromSelectionError =>
        Except.ok (ResetOutcome.abortedWithMessage HostExc.failedToResolveFromSelectionError, s)
      | Except.error e => Except.ok (ResetOutcome.raised e, s)
      | Except.ok cameras =>
        match self.clip_values with
        | none => Except.error "AttributeError: clip_values"
        | some cv =>
          Except.ok (ResetOutcome.completed, set_cameras_clip_plane cameras cv.near cv.far s)

/-- A concrete camera node used by the witnesses. -/
def camNode : Node :=
  Node.mk 0 "camera" []

/-- A second concrete camera node used by the witnesses. -/
def camNodeB : Node :=
  Node.mk 5 "camera" []

/-- A concrete non-camera, non-transform node used by the witnesses. -/
def meshNode : Node :=
  Node.mk 1 "mesh" []

/-- A concrete transform node with two camera children (and one mesh child
between them) used by the witnesses. -/
def xformNode : Node :=
  Node.mk 2 "transform" [Node.mk 3 "camera" [], Node.mk 4 "mesh" [], Node.mk 6 "camera" []]

/-- A concrete initial scene state used by the witnesses. -/
def scene0 : Scene :=
  { nearClipPlane := fun _ => 0, farClipPlane := fun _ => 0, log := [] }

/-- C2: In "selected" mode, `get_selected_cameras` raises
`NothingSelectedError` exactly when the host selection is empty, raises
`FailedToResolveFromSelectionError` exactly when the selection is non-empty
but contains no camera-type node, directly or as a direct child of a
transform, and otherwise returns the resolved cameras. -/
theorem get_selected_cameras_error_spec (sel : List Node) :
    (get_selected_cameras sel = Except.error HostExc.nothingSelectedError ↔ sel = [])
    ∧ (get_selected_cameras sel = Except.error HostExc.failedToResolveFromSelectionError ↔
        (sel ≠ [] ∧ ∀ n ∈ sel, Node.ntype n ≠ "camera" ∧
          (Node.ntype n = "transform" →
            ∀ c ∈ Node.children n, Node.ntype c ≠ "camera")))
    ∧ (sel ≠ [] → resolve_cameras sel ≠ [] →
        get_selected_cameras sel = Except.ok (resolve_cameras sel)) := by
  by_cases hsel : sel = []
  · subst hsel
    refine ⟨by simp [get_selected_cameras], by simp [get_selected_cameras], ?_⟩
    intro h
    exact absurd rfl h
  · have h1 : sel.isEmpty = false := by
      simpa [List.isEmpty_iff] using hsel
    by_cases hres : resolve_cameras sel = []
    · have h2 : (resolve_cameras sel).isEmpty = true := by
        simpa [List.isEmpty_iff] using hres
      refine ⟨?_, ?_, ?_⟩
      · simp [get_selected_cameras, h1, h2, hsel]
      · constructor
        · intro _
          exact ⟨hsel, (resolve_cameras_eq_nil_iff sel).mp hres⟩
        · intro _
          simp [get_selected_cameras, h1, h2]
      · intro _ h
        exact absurd hres h
    · have h2 : (resolve_cameras sel).isEmpty = false := by
        simpa [List.isEmpty_iff] using hres
      refine ⟨?_, ?_, ?_⟩
      · simp [get_selected_cameras, h1, h2, hsel]
      · constructor
        · intro h
          simp [get_selected_cameras, h1, h2] at h
        · rintro ⟨_, hall⟩
          exact absurd ((resolve_cameras_eq_nil_iff sel).mpr hall) hres
      · intro _ _
        simp [get_selected_cameras, h1, h2]

/-- Witness for C2: with an empty selection the distinguished "nothing
selected" error is raised; with only a mesh node selected the "no cameras
resolved" error is raised; with a camera selected the camera is returned. -/
theorem get_selected_cameras_error_spec_witness :
    get_selected_cameras [] = Except.error HostExc.nothingSelectedError
    ∧ get_selected_cameras [meshNode] = Except.error HostExc.failedToResolveFromSelectionError
    ∧ get_selected_cameras [camNode] = Except.ok [camNode] := by
  refine ⟨(get_selected_cameras_error_spec []).1.mpr rfl, ?_, ?_⟩
  · refine (get_selected_cameras_error_spec [meshNode]).2.1.mpr
      ⟨List.cons_ne_nil _ _, ?_⟩
    intro n hn
    rw [List.mem_singleton] at hn
    subst hn
    exact ⟨by decide, by decide⟩
  · have hres : resolve_cameras [camNode] = [camNode] := rfl
    have h := (get_selected_cameras_error_spec [camNode]).2.2 (List.cons_ne_nil _ _)
      (by rw [hres]; exact List.cons_ne_nil _ _)
    rw [hres] at h
    exact h

/-- C3: For every camera sequence and every pair of rational clip values,
`set_cameras_clip_plane` writes the near and the far attribute of every
camera of the sequence, in sequence order (the write log equals the per-camera
near, far writes concatenated in sequence order), and each listed camera's
attributes end up exactly at the given values. -/
theorem set_cameras_clip_plane_sets_all (cameras : List Node) (near far : Rat) (s : Scene)
    (cam : Node) (hmem : cam ∈ cameras) :
    (set_cameras_clip_plane cameras near far s).log =
        s.log ++ cameras.flatMap (clipWritesFor near far)
    ∧ (set_cameras_clip_plane cameras near far s).nearClipPlane (Node.id cam) = near
    ∧ (set_cameras_clip_plane cameras near far s).farClipPlane (Node.id cam) = far :=
  ⟨set_cameras_clip_plane_log cameras near far s,
   (set_cameras_clip_plane_mem cameras near far s cam hmem).1,
   (set_cameras_clip_plane_mem cameras near far s cam hmem).2⟩

/-- Witness for C3: applying the setter with near `1` and far `50000` to two
concrete cameras leaves the first camera's attributes at exactly those
values, and the write log lists both cameras' writes in order. -/
theorem set_cameras_clip_plane_sets_all_witness :
    camNode ∈ [camNode, camNodeB]
    ∧ (set_cameras_clip_plane [camNode, camNodeB] 1 50000 scene0).nearClipPlane
        (Node.id camNode) = 1
    ∧ (set_cameras_clip_plane [camNode, camNodeB] 1 50000 scene0).farClipPlane
        (Node.id camNode) = 50000
    ∧ (set_cameras_clip_plane [camNode, camNodeB] 1 50000 scene0).log =
        scene0.log ++ [camNode, camNodeB].flatMap (clipWritesFor 1 50000) :=
  have h := set_cameras_clip_plane_sets_all [camNode, camNodeB] 1 50000 scene0 camNode
    (List.mem_cons_self _ _)
  ⟨List.mem_cons_self _ _, h.2.1, h.2.2, h.1⟩

/-- C5: For every input list containing only nodes that are neither
camera-type nor transform-type (the empty list included), `resolve_cameras`
yields the empty sequence (the model is a total function, so no error arises
from the resolver itself). -/
theorem resolve_cameras_only_other_nil (nodes : List Node)
    (h : ∀ n ∈ nodes, Node.ntype n ≠ "camera" ∧ Node.ntype n ≠ "transform") :
    resolve_cameras nodes = [] := by
  apply (resolve_cameras_eq_nil_iff nodes).mpr
  intro n hn
  exact ⟨(h n hn).1, fun ht => absurd ht (h n hn).2⟩

/-- Witness for C5: the resolver yields the empty sequence on the empty list
and on a list holding one mesh node. -/
theorem resolve_cameras_only_other_nil_witness :
    resolve_cameras [] = [] ∧ resolve_cameras [meshNode] = [] :=
  ⟨resolve_cameras_only_other_nil [] (by intro n hn; cases hn),
   resolve_cameras_only_other_nil [meshNode] (by
     intro n hn
     rw [List.mem_singleton] at hn
     subst hn
     exact ⟨by decide, by decide⟩)⟩

/-- C6: In "all" mode, `get_all_cameras` returns every camera of the scene
unconditionally, the reset action completes without any error for every such
result, and with zero cameras in the scene the setter call is a no-op that
leaves the scene state (attributes and write log) unchanged. -/
theorem all_mode_unconditional (sceneCameras : List Node) (near far : Rat) (s : Scene) :
    get_all_cameras sceneCameras = sceneCameras
    ∧ (reset_cameras_model (Except.ok (get_all_cameras sceneCameras)) near far s).1 =
        ResetOutcome.completed
    ∧ reset_cameras_model (Except.ok (get_all_cameras [])) near far s =
        (ResetOutcome.completed, s) :=
  ⟨rfl, rfl, rfl⟩

/-- C7: The tool never validates the clip-value constraints: for every pair
of values, a negative near or a far at most the near included, the reset path
runs the setter with the values as given, every listed camera's attributes
end up exactly at those values, and the write log records exactly those
values — no error, no clamping. -/
theorem setter_no_validation (cameras : List Node) (near far : Rat) (s : Scene)
    (cam : Node) (hmem : cam ∈ cameras) :
    reset_cameras_model (Except.ok cameras) near far s =
        (ResetOutcome.completed, set_cameras_clip_plane cameras near far s)
    ∧ (set_cameras_clip_plane cameras near far s).nearClipPlane (Node.id cam) = near
    ∧ (set_cameras_clip_plane cameras near far s).farClipPlane (Node.id cam) = far
    ∧ (set_cameras_clip_plane cameras near far s).log =
        s.log ++ cameras.flatMap (clipWritesFor near far) :=
  ⟨rfl,
   (set_cameras_clip_plane_mem cameras near far s cam hmem).1,
   (set_cameras_clip_plane_mem cameras near far s cam hmem).2,
   set_cameras_clip_plane_log cameras near far s⟩

/-- Witness for C7: with the invalid pair near `-5`, far `-10` (negative
near and far below near) the setter still writes exactly those values. -/
theorem setter_no_validation_witness :
    ((-5 : Rat) < 0 ∧ (-10 : Rat) ≤ (-5 : Rat))
    ∧ (set_cameras_clip_plane [camNode] (-5) (-10) scene0).nearClipPlane 0 = -5
    ∧ (set_cameras_clip_plane [camNode] (-5) (-10) scene0).farClipPlane 0 = -10 :=
  have h := setter_no_validation [camNode] (-5) (-10) scene0 camNode (List.mem_cons_self _ _)
  ⟨⟨by norm_num, by norm_num⟩, h.2.1, h.2.2.1⟩

/-- Counterexample to C4 as stated: `camera_manip_show_selected` is an
action invoking selection-mode resolution, yet with an empty host selection
the named "nothing selected" failure is NOT reported via an in-view message
— it propagates uncaught out of the method (outcome `raised`, not
`abortedWithMessage`). -/
theorem camera_manip_named_failure_not_reported :
    camera_manip_show_selected ([] : List Node) =
        (ResetOutcome.raised HostExc.nothingSelectedError, ([] : List (Nat × List Bool)))
    ∧ (camera_manip_show_selected ([] : List Node)).1 ≠
        ResetOutcome.abortedWithMessage HostExc.nothingSelectedError :=
  ⟨rfl, by decide⟩

/-- C4 (amended): In `reset_cameras`, either named failure is reported via a
transient in-view message and the action returns with the scene untouched,
while any other host exception is re-raised unmodified with the scene
untouched; but the camera-manipulator actions that invoke selection-mode
resolution (`camera_manip_show_selected` and its siblings) do not catch the
named failures: whatever error `get_selected_cameras` raises propagates
uncaught, with no in-view message and no manipulator toggled. -/
theorem reset_error_handling_amended (near far : Rat) (s : Scene) (code : Nat)
    (sel : List Node) :
    reset_cameras_model (Except.error HostExc.nothingSelectedError) near far s =
        (ResetOutcome.abortedWithMessage HostExc.nothingSelectedError, s)
    ∧ reset_cameras_model (Except.error HostExc.failedToResolveFromSelectionError) near far s =
        (ResetOutcome.abortedWithMessage HostExc.failedToResolveFromSelectionError, s)
    ∧ reset_cameras_model (Except.error (HostExc.otherExc code)) near far s =
        (ResetOutcome.raised (HostExc.otherExc code), s)
    ∧ (∀ e, get_selected_cameras sel = Except.error e →
        camera_manip_show_selected sel = (ResetOutcome.raised e, [])) := by
  refine ⟨rfl, rfl, rfl, ?_⟩
  intro e h
  simp [camera_manip_show_selected, h]

/-- Witness for C4 (amended): the named failure fed to `reset_cameras` gives
the in-view message outcome with the scene untouched, and the same failure
inside `camera_manip_show_selected` propagates uncaught. -/
theorem reset_error_handling_amended_witness :
    reset_cameras_model (Except.error HostExc.nothingSelectedError) 1 50000 scene0 =
        (ResetOutcome.abortedWithMessage HostExc.nothingSelectedError, scene0)
    ∧ camera_manip_show_selected [] = (ResetOutcome.raised HostExc.nothingSelectedError, []) :=
  have h := reset_error_handling_amended 1 50000 scene0 0 []
  ⟨h.1, h.2.2.2 HostExc.nothingSelectedError rfl⟩

theorem set_cameras_clip_plane_exc_split (locked : Nat → Attr → Bool) (cameras : List Node)
    (near far : Rat) (s : Scene) (e : Nat × Attr)
    (h : (set_cameras_clip_plane_exc locked cameras near far s).2 = some e) :
    ∃ pre c post,
      cameras = pre ++ c :: post
      ∧ (∀ c2 ∈ pre, locked (Node.id c2) Attr.nearClip = false ∧
          locked (Node.id c2) Attr.farClip = false)
      ∧ ((locked (Node.id c) Attr.nearClip = true ∧ e = (Node.id c, Attr.nearClip) ∧
            (set_cameras_clip_plane_exc locked cameras near far s).1 =
              set_cameras_clip_plane pre near far s)
        ∨ (locked (Node.id c) Attr.nearClip = false ∧
            locked (Node.id c) Attr.farClip = true ∧
            e = (Node.id c, Attr.farClip) ∧
            (set_cameras_clip_plane_exc locked cameras near far s).1 =
              setNearClipPlane (Node.id c) near (set_cameras_clip_plane pre near far s))) := by
  induction cameras generalizing s with
  | nil => simp [set_cameras_clip_plane_exc] at h
  | cons cam rest ih =>
    by_cases h1 : locked (Node.id cam) Attr.nearClip = true
    · have hval : set_cameras_clip_plane_exc locked (cam :: rest) near far s =
          (s, some (Node.id cam, Attr.nearClip)) := by
        simp [set_cameras_clip_plane_exc, h1]
      rw [hval] at h
      refine ⟨[], cam, rest, rfl, ?_, Or.inl ⟨h1, (Option.some.inj h).symm, ?_⟩⟩
      · intro c2 hc2
        cases hc2
      · rw [hval]
        rfl
    · have h1f : locked (Node.id cam) Attr.nearClip = false := by
        simpa using h1
      by_cases h2 : locked (Node.id cam) Attr.farClip = true
      · have hval : set_cameras_clip_plane_exc locked (cam :: rest) near far s =
            (setNearClipPlane (Node.id cam) near s, some (Node.id cam, Attr.farClip)) := by
          simp [set_cameras_clip_plane_exc, h1f, h2]
        rw [hval] at h
        refine ⟨[], cam, rest, rfl, ?_,
          Or.inr ⟨h1f, h2, (Option.some.inj h).symm, ?_⟩⟩
        · intro c2 hc2
          cases hc2
        · rw [hval]
          rfl
      · have h2f : locked (Node.id cam) Attr.farClip = false := by
          simpa using h2
        have hstep : set_cameras_clip_plane_exc locked (cam :: rest) near far s =
            set_cameras_clip_plane_exc locked rest near far
              (setFarClipPlane (Node.id cam) far (setNearClipPlane (Node.id cam) near s)) := by
          simp [set_cameras_clip_plane_exc, h1f, h2f]
        rw [hstep] at h
        obtain ⟨pre, c, post, heq, hok, hdisj⟩ := ih _ h
        refine ⟨cam :: pre, c, post, ?_, ?_, ?_⟩
        · rw [heq]
          rfl
        · intro c2 hc2
          rcases List.mem_cons.mp hc2 with hh | hh
          · subst hh
            exact ⟨h1f, h2f⟩
          · exact hok c2 hh
        · have hpre : set_cameras_clip_plane (cam :: pre) near far s =
              set_cameras_clip_plane pre near far
                (setFarClipPlane (Node.id cam) far (setNearClipPlane (Node.id cam) near s)) := rfl
          rw [hstep, hpre]
          exact hdisj

/-- C8: If the host attribute setter raises on some camera partway through
the setter loop, the exception propagates unmodified (identifying the failing
camera and attribute), the loop performs no further sets — the final state is
exactly the writes for the cameras before the failing one (plus, when the
far write failed, that camera's near write) — and every camera earlier in
the sequence retains the newly written near and far values. -/
theorem setter_partial_failure (locked : Nat → Attr → Bool) (cameras : List Node)
    (near far : Rat) (s : Scene) (e : Nat × Attr)
    (h : (set_cameras_clip_plane_exc locked cameras near far s).2 = some e) :
    ∃ pre c post,
      cameras = pre ++ c :: post
      ∧ (∀ c2 ∈ pre, locked (Node.id c2) Attr.nearClip = false ∧
          locked (Node.id c2) Attr.farClip = false)
      ∧ ((locked (Node.id c) Attr.nearClip = true ∧ e = (Node.id c, Attr.nearClip) ∧
            (set_cameras_clip_plane_exc locked cameras near far s).1 =
              set_cameras_clip_plane pre near far s)
        ∨ (locked (Node.id c) Attr.nearClip = false ∧
            locked (Node.id c) Attr.farClip = true ∧
            e = (Node.id c, Attr.farClip) ∧
            (set_cameras_clip_plane_exc locked cameras near far s).1 =
              setNearClipPlane (Node.id c) near (set_cameras_clip_plane pre near far s)))
      ∧ (∀ c2 ∈ pre,
          (set_cameras_clip_plane_exc locked cameras near far s).1.nearClipPlane
              (Node.id c2) = near
          ∧ (set_cameras_clip_plane_exc locked cameras near far s).1.farClipPlane
              (Node.id c2) = far) := by
  obtain ⟨pre, c, post, heq, hok, hdisj⟩ :=
    set_cameras_clip_plane_exc_split locked cameras near far s e h
  refine ⟨pre, c, post, heq, hok, hdisj, ?_⟩
  intro c2 hc2
  rcases hdisj with ⟨_, _, hstate⟩ | ⟨_, _, _, hstate⟩
  · rw [hstate]
    exact set_cameras_clip_plane_mem pre near far s c2 hc2
  · rw [hstate]
    constructor
    · simp only [setNearClipPlane]
      by_cases hid : Node.id c2 = Node.id c
      · simp [hid]
      · simp [hid, (set_cameras_clip_plane_mem pre near far s c2 hc2).1]
    · simp only [setNearClipPlane]
      exact (set_cameras_clip_plane_mem pre near far s c2 hc2).2

/-- Witness for C8: with a host that raises on every write to camera id `5`,
running the setter on a camera with id `0` followed by a camera with id `5`
raises at the second camera's near write, and the theorem's decomposition
applies. -/
theorem setter_partial_failure_witness :
    (set_cameras_clip_plane_exc (fun i _ => decide (i = 5)) [camNode, camNodeB]
        1 50000 scene0).2 = some (5, Attr.nearClip)
    ∧ ∃ pre c post,
        [camNode, camNodeB] = pre ++ c :: post
        ∧ (∀ c2 ∈ pre, decide (Node.id c2 = 5) = false ∧ decide (Node.id c2 = 5) = false)
        ∧ ((decide (Node.id c = 5) = true ∧
              ((5 : Nat), Attr.nearClip) = (Node.id c, Attr.nearClip) ∧
              (set_cameras_clip_plane_exc (fun i _ => decide (i = 5)) [camNode, camNodeB]
                  1 50000 scene0).1 = set_cameras_clip_plane pre 1 50000 scene0)
          ∨ (decide (Node.id c = 5) = false ∧ decide (Node.id c = 5) = true ∧
              ((5 : Nat), Attr.nearClip) = (Node.id c, Attr.farClip) ∧
              (set_cameras_clip_plane_exc (fun i _ => decide (i = 5)) [camNode, camNodeB]
                  1 50000 scene0).1 =
                setNearClipPlane (Node.id c) 1 (set_cameras_clip_plane pre 1 50000 scene0)))
        ∧ (∀ c2 ∈ pre,
            (set_cameras_clip_plane_exc (fun i _ => decide (i = 5)) [camNode, camNodeB]
                1 50000 scene0).1.nearClipPlane (Node.id c2) = 1
            ∧ (set_cameras_clip_plane_exc (fun i _ => decide (i = 5)) [camNode, camNodeB]
                1 50000 scene0).1.farClipPlane (Node.id c2) = 50000) :=
  ⟨by decide,
   setter_partial_failure (fun i _ => decide (i = 5)) [camNode, camNodeB] 1 50000 scene0
     (5, Attr.nearClip) (by decide)⟩

/-- C9: The two revisions' core functions are extensionally equal: both
`resolve_cameras` definitions agree on every node sequence, and the root
revision's `set_cameras_clip_plane` agrees with the other revision's
`reset_cameras_clip_plane` — same final attribute values and the same write
log, hence the same writes in the same order — with
`reset_cameras_clip_plane_all` matching the "all"-mode pipeline. -/
theorem revisions_extensionally_equal (nodes cameras : List Node) (near far : Rat)
    (s : Scene) :
    resolve_cameras nodes = rev2.resolve_cameras nodes
    ∧ set_cameras_clip_plane cameras near far s =
        rev2.reset_cameras_clip_plane cameras near far s
    ∧ rev2.reset_cameras_clip_plane_all cameras near far s =
        set_cameras_clip_plane (get_all_cameras cameras) near far s := by
  have hset : ∀ (cams : List Node) (st : Scene),
      set_cameras_clip_plane cams near far st =
        rev2.reset_cameras_clip_plane cams near far st := by
    intro cams
    induction cams with
    | nil =>
      intro st
      rfl
    | cons cam rest ih =>
      intro st
      simp only [set_cameras_clip_plane, rev2.reset_cameras_clip_plane]
      exact ih _
  refine ⟨?_, hset cameras s, (hset cameras s).symm⟩
  induction nodes with
  | nil => rfl
  | cons node rest ih =>
    simp only [resolve_cameras, rev2.resolve_cameras, is_node_of_type, rev2.is_node_of_type,
      mc_nodeType, Node.type, ih]

/-- C10: A freshly constructed `MayaResetCameraClipPlanes` instance has no
`mode` and no `clip_values` attribute — its initializer is named `__int__`,
not `__init__`, so it never runs — hence `reset_cameras` on a fresh instance
fails with an attribute-lookup error instead of using the documented
defaults (which the misnamed method would have set to `"selected"`, `1`,
`50000`); the attributes exist once the UI assigns them before an apply, and
only then does `reset_cameras` run. -/
theorem fresh_instance_missing_attributes (sel sceneCameras : List Node) (s : Scene)
    (inst : MayaResetCameraClipPlanes) (cv : ClipPair) :
    MayaResetCameraClipPlanes.new = MayaResetCameraClipPlanes.mk none none
    ∧ MayaResetCameraClipPlanes.reset_cameras MayaResetCameraClipPlanes.new
        sel sceneCameras s = Except.error "AttributeError: mode"
    ∧ (MayaResetCameraClipPlanes.__int__ inst).mode = some "selected"
    ∧ (MayaResetCameraClipPlanes.__int__ inst).clip_values =
        some (ClipPair.mk DEFAULT_CLIP_PLANE_NEAR DEFAULT_CLIP_PLANE_FAR)
    ∧ MayaResetCameraClipPlanes.reset_cameras
        (MayaResetCameraClipPlanes.ui_assign inst "all" cv) sel sceneCameras s =
        Except.ok (ResetOutcome.completed,
          set_cameras_clip_plane (get_all_cameras sceneCameras) cv.near cv.far s) :=
  ⟨rfl, rfl, rfl, rfl, rfl⟩
